import Mathlib

/-!
Verification of the recupare lineage API against its specification.

The definitions below are a shallow embedding of the repository's API route
handlers over an explicit relational store:

* `mermaidPOST` embeds `src/app/api/lineage/mermaid/route.ts` (the recursive
  lineage-chain CTE, node assembly, consecutive-pair edge construction and
  mermaid diagram synthesis);
* `relationshipsGET` embeds `src/app/api/lineage/relationships/route.ts`;
* `searchGET` embeds `src/app/api/lineage/search/route.ts`;
* `transformationsPOST` embeds the transformation lookup of
  `src/app/api/lineage/tables/route.ts`.

SQL queries are modelled as joins/filters over lists of rows; `ORDER BY` is a
stable insertion sort; JavaScript string falsiness (`undefined`/`''`) is
modelled on `Option String`.
-/

-- ===========================================================================
-- Relational store (schema: layers, tables, columns, transformations,
-- table_relationships)
-- ===========================================================================

structure LayerRow where
  id : Nat
  name : String
deriving DecidableEq, Repr

structure TableRow where
  id : Nat
  name : String
  layer_id : Nat
  description : Option String
deriving DecidableEq, Repr

structure ColumnRow where
  id : Nat
  name : String
  data_type : String
  table_id : Nat
  layer_id : Nat
deriving DecidableEq, Repr

structure TransfRow where
  id : Nat
  name : String
  description : Option String
  source_table_id : Nat
  target_table_id : Nat
  transformation_type : String
  script : Option String
  status : Option String
  created_at : Nat
  confidence_score : Rat
deriving DecidableEq, Repr

structure RelRow where
  id : Nat
  relationship_type : String
  description : Option String
  confidence_score : Rat
  source_table_id : Nat
  target_table_id : Nat
deriving DecidableEq, Repr

structure Store where
  layers : List LayerRow
  tables : List TableRow
  columns : List ColumnRow
  transformations : List TransfRow
  table_relationships : List RelRow
deriving DecidableEq, Repr

-- ===========================================================================
-- JavaScript / string helpers (kernel-reducible replacements for toUpperCase,
-- toLowerCase, string comparison, parseInt, and `x || fallback`)
-- ===========================================================================

/-- Truthiness of an optional string in JavaScript: `undefined` and `''` are
falsy, everything else is truthy. -/
def truthyStr (o : Option String) : Bool :=
  match o with
  | none => false
  | some s => if s = "" then false else true

/-- JavaScript `x || dflt` on an optional string: the default is used when `x`
is `undefined` or the empty string. -/
def jsOrElse (o : Option String) (dflt : String) : String :=
  match o with
  | none => dflt
  | some s => if s = "" then dflt else s

/-- ASCII uppercase of one character (model of JavaScript `toUpperCase`). -/
def charUpper (c : Char) : Char :=
  if 97 ≤ c.toNat ∧ c.toNat ≤ 122 then Char.ofNat (c.toNat - 32) else c

/-- ASCII lowercase of one character (model of JavaScript `toLowerCase`). -/
def charLower (c : Char) : Char :=
  if 65 ≤ c.toNat ∧ c.toNat ≤ 90 then Char.ofNat (c.toNat + 32) else c

/-- ASCII uppercase of a string. -/
def strUpper (s : String) : String :=
  String.mk (s.data.map charUpper)

/-- Model of `s.charAt(0).toUpperCase() + s.slice(1)`. -/
def capitalizeFirst (s : String) : String :=
  match s.data with
  | [] => ""
  | c :: cs => String.mk (charUpper c :: cs)

/-- Lexicographic comparison of character lists by code point. -/
def charListLe : List Char → List Char → Bool
  | [], _ => true
  | _ :: _, [] => false
  | a :: as, b :: bs =>
    if a.toNat < b.toNat then true
    else if a.toNat = b.toNat then charListLe as bs
    else false

/-- Lexicographic string comparison (model of the store's text ordering). -/
def strLe (a b : String) : Bool :=
  charListLe a.data b.data

/-- Digit run to a natural number, most significant first. -/
def digitsToNat (ds : List Char) : Nat :=
  ds.foldl (fun n c => n * 10 + (c.toNat - 48)) 0

/-- Model of JavaScript `parseInt` in base 10: an optional sign followed by at
least one digit parses (ignoring any trailing garbage); anything else is `NaN`,
modelled as `none`. -/
def parseIntJS (s : String) : Option Int :=
  match s.data with
  | '-' :: rest =>
    match rest.takeWhile Char.isDigit with
    | [] => none
    | ds => some (-(digitsToNat ds : Int))
  | cs =>
    match cs.takeWhile Char.isDigit with
    | [] => none
    | ds => some (digitsToNat ds : Int)

/-- Check that the first list starts the second one. -/
def charListIsPre : List Char → List Char → Bool
  | [], _ => true
  | _ :: _, [] => false
  | a :: as, b :: bs => if a = b then charListIsPre as bs else false

/-- Case-insensitive check that `needle` occurs as a contiguous run of `hay`
(model of SQL `hay ILIKE '%needle%'`). -/
def charListHasSub (hay needle : List Char) : Bool :=
  charListIsPre needle hay ||
    match hay with
    | [] => false
    | _ :: t => charListHasSub t needle

/-- SQL `col ILIKE '%pat%'` on a nullable column: `NULL` never matches. -/
def ilikeContains (col : Option String) (pat : String) : Bool :=
  match col with
  | none => false
  | some s => charListHasSub (s.data.map charLower) (pat.data.map charLower)

-- ===========================================================================
-- Stable insertion sort (model of SQL ORDER BY) and first-occurrence
-- deduplication (model of `[...new Set(xs)]` / object key insertion order)
-- ===========================================================================

/-- Insert `a` before the first element `b` with `le a b`. -/
def insertBy {α : Type} (le : α → α → Bool) (a : α) : List α → List α
  | [] => [a]
  | b :: l => if le a b then a :: b :: l else b :: insertBy le a l

/-- Stable insertion sort by the boolean relation `le`. -/
def sortBy {α : Type} (le : α → α → Bool) : List α → List α
  | [] => []
  | a :: l => insertBy le a (sortBy le l)

/-- First-occurrence deduplication relative to an already-seen prefix. -/
def dedupFirstAux {α : Type} [DecidableEq α] (seen : List α) : List α → List α
  | [] => []
  | a :: l => if a ∈ seen then dedupFirstAux seen l else a :: dedupFirstAux (seen ++ [a]) l

/-- First-occurrence deduplication, preserving order (model of iterating a
JavaScript `Set`, whose iteration order is insertion order). -/
def dedupFirst {α : Type} [DecidableEq α] (l : List α) : List α :=
  dedupFirstAux [] l

-- ===========================================================================
-- Mermaid lineage route (src/app/api/lineage/mermaid/route.ts)
-- ===========================================================================

/-- Row of the recursive `lineage_chain` CTE. -/
structure ChainRow where
  id : Nat
  name : String
  layer : String
  layer_id : Nat
  depth : Nat
  description : Option String
deriving DecidableEq, Repr

/-- Node of the assembled lineage graph (interface `LineageNode`). -/
structure LineageNode where
  id : Nat
  name : String
  layer : String
  layer_id : Nat
  depth : Nat
  column_count : Nat
  description : String
deriving DecidableEq, Repr

/-- Edge of the assembled lineage graph (interface `LineageEdge`). -/
structure LineageEdge where
  source : String
  target : String
  source_layer : String
  target_layer : String
  transformation_type : String
deriving DecidableEq, Repr

/-- Request body of the mermaid endpoint (interface `MermaidRequestBody`;
`direction` is one of `upstream`/`downstream`/`both` when present). -/
structure MermaidBody where
  table_name : Option String
  layer : Option String
  direction : Option String
deriving DecidableEq, Repr

/-- Response of the mermaid endpoint (interface `MermaidLineageResponse`),
together with the HTTP status it is sent with. -/
structure MermaidLineageResponse where
  nodes : List LineageNode
  edges : List LineageEdge
  mermaid_syntax : String
  selected_table : String
  selected_layer : String
  total_depth : Nat
  layers_involved : List String
  error : Option String
  status : Nat
deriving DecidableEq, Repr

/-- Anchor part of the recursive CTE: tables joined with layers, filtered to
the requested name and layer, at depth 0. -/
def seedRows (s : Store) (table_name layer : String) : List ChainRow :=
  s.tables.flatMap fun t =>
    s.layers.filterMap fun l =>
      if t.layer_id = l.id ∧ t.name = table_name ∧ l.name = layer then
        some ⟨t.id, t.name, l.name, l.id, 0, t.description⟩
      else none

/-- Recursive part of the CTE: rows of the previous level with `depth < 3`
joined with `transformations` (as source), `tables` and `layers`, producing
the transformation targets at `depth + 1`.  The CTE uses `UNION ALL`, so no
deduplication happens here. -/
def chainStep (s : Store) (rows : List ChainRow) : List ChainRow :=
  rows.flatMap fun lc =>
    if lc.depth < 3 then
      s.transformations.flatMap fun tr =>
        if lc.id = tr.source_table_id then
          s.tables.flatMap fun tt =>
            if tr.target_table_id = tt.id then
              s.layers.filterMap fun tl =>
                if tt.layer_id = tl.id then
                  some ⟨tt.id, tt.name, tl.name, tl.id, lc.depth + 1, tt.description⟩
                else none
            else []
        else []
    else []

/-- Levels of the recursive CTE evaluation: level 0 is the anchor, level
`n + 1` is `chainStep` applied to level `n`. -/
def lineageLevels (s : Store) (tn ln : String) : Nat → List ChainRow
  | 0 => seedRows s tn ln
  | n + 1 => chainStep s (lineageLevels s tn ln n)

/-- All rows produced by the recursive CTE.  Since the anchor is at depth 0 and
the recursive part guards on `depth < 3`, the fixpoint is reached after the
levels 0..3 (see `lineageLevels_eq_nil_of_ge`). -/
def lineageChain (s : Store) (tn ln : String) : List ChainRow :=
  (List.range 4).flatMap (lineageLevels s tn ln)

/-- Sort key of the CTE's `ORDER BY layer_id, name`. -/
def chainRowLe (a b : ChainRow) : Bool :=
  if a.layer_id < b.layer_id then true
  else if a.layer_id = b.layer_id then strLe a.name b.name
  else false

/-- Column count lookup for one table (`SELECT COUNT(*) FROM columns WHERE
table_id = id`). -/
def columnCount (s : Store) (tableId : Nat) : Nat :=
  (s.columns.filter fun c => c.table_id = tableId).length

/-- Assembly of one response node from a chain row: column count fetched per
node, description defaulted to the synthesized text when the stored one is
`NULL` or empty (JavaScript `row.description || ...`). -/
def toLineageNode (s : Store) (r : ChainRow) : LineageNode :=
  { id := r.id
    name := r.name
    layer := r.layer
    layer_id := r.layer_id
    depth := r.depth
    column_count := columnCount s r.id
    description := jsOrElse r.description (r.name ++ " table in " ++ r.layer ++ " layer") }

/-- Result row of the per-pair transformation query (`SELECT t.transformation_type,
st.name, tt.name, sl.name, tl.name ...`). -/
structure TransfJoin where
  transformation_type : String
  source_table : String
  target_table : String
  source_layer : String
  target_layer : String
deriving DecidableEq, Repr

/-- Query for transformations between two specific node ids, with the joins of
the source query (`WHERE st.id = sid AND tt.id = tid`). -/
def edgeQuery (s : Store) (sid tid : Nat) : List TransfJoin :=
  s.transformations.flatMap fun tr =>
    s.tables.flatMap fun st =>
      if tr.source_table_id = st.id then
        s.tables.flatMap fun tt =>
          if tr.target_table_id = tt.id then
            s.layers.flatMap fun sl =>
              if st.layer_id = sl.id then
                s.layers.filterMap fun tl =>
                  if tt.layer_id = tl.id ∧ st.id = sid ∧ tt.id = tid then
                    some ⟨tr.transformation_type, st.name, tt.name, sl.name, tl.name⟩
                  else none
              else []
          else []
      else []

/-- Edge construction: for each pair of consecutive nodes of the (sorted) node
list, query for a transformation between them and emit one edge from the first
result row, if any. -/
def buildEdges (s : Store) : List LineageNode → List LineageEdge
  | a :: b :: rest =>
    (match edgeQuery s a.id b.id with
     | [] => []
     | tj :: _ => [⟨a.name, b.name, a.layer, b.layer, tj.transformation_type⟩])
      ++ buildEdges s (b :: rest)
  | _ => []

/-- Subgraph title: `layerName.charAt(0).toUpperCase() + layerName.slice(1)`
followed by " Layer". -/
def layerTitle (layerName : String) : String :=
  capitalizeFirst layerName ++ " Layer"

/-- Subtitle attached to a layer's subgraph: the conditional expression of the
source (bronze, silver, and a catch-all else branch). -/
def layerDescription (layerName : String) : String :=
  if layerName = "bronze" then "Raw Data"
  else if layerName = "silver" then "Cleansed Data"
  else "Business Ready"

/-- Header line opening one layer's subgraph. -/
def subgraphHeader (layerName : String) : String :=
  "    subgraph \"" ++ layerTitle layerName ++ " - " ++ layerDescription layerName ++ "\"\n"

/-- Mermaid identifier of a node: upper-cased layer, underscore, table name. -/
def nodeId (n : LineageNode) : String :=
  strUpper n.layer ++ "_" ++ n.name

/-- Statement line of one node inside its subgraph. -/
def nodeLine (n : LineageNode) : String :=
  "        " ++ nodeId n ++ "[\"" ++ n.name ++ "<br/>" ++ toString n.column_count
    ++ " columns<br/>" ++ n.description ++ "\"]\n"

/-- One step of the JavaScript `reduce` that groups nodes by layer: the value
under an existing key is extended in place, a new key is appended at the end
(object key insertion order). -/
def addToGroups (gs : List (String × List LineageNode)) (n : LineageNode) :
    List (String × List LineageNode) :=
  match gs with
  | [] => [(n.layer, [n])]
  | (k, ms) :: rest =>
    if k = n.layer then (k, ms ++ [n]) :: rest else (k, ms) :: addToGroups rest n

/-- Grouping of the node list by layer (`nodes.reduce(...)`), key order being
the order of first occurrence. -/
def groupByLayer (nodes : List LineageNode) : List (String × List LineageNode) :=
  nodes.foldl addToGroups []

/-- Text of one layer's subgraph block. -/
def subgraphBlock (g : String × List LineageNode) : String :=
  subgraphHeader g.1 ++ String.join (g.2.map nodeLine) ++ "    end\n\n"

/-- Connection statement for one edge. -/
def edgeLine (e : LineageEdge) : String :=
  "    " ++ strUpper e.source_layer ++ "_" ++ e.source ++ " -->|"
    ++ e.transformation_type ++ "| " ++ strUpper e.target_layer ++ "_" ++ e.target ++ "\n"

/-- Fixed styling block (classDef declarations). -/
def styleBlock : String :=
  "\n    %% Layer Styling\n"
    ++ "    classDef bronze fill:#fff3e0,stroke:#e65100,stroke-width:2px,color:#000\n"
    ++ "    classDef silver fill:#f3e5f5,stroke:#4a148c,stroke-width:2px,color:#000\n"
    ++ "    classDef gold fill:#e8f5e8,stroke:#1b5e20,stroke-width:2px,color:#000\n\n"

/-- Class-assignment statement binding one node to its layer's style class. -/
def classLine (layerName : String) (n : LineageNode) : String :=
  "    class " ++ nodeId n ++ " " ++ layerName ++ "\n"

/-- Diagram synthesizer: the full mermaid text assembled from the node and
edge lists (subgraphs per layer, then edges, then styling, then class
assignments). -/
def mermaidSynth (nodes : List LineageNode) (edges : List LineageEdge) : String :=
  "graph LR\n\n"
    ++ String.join ((groupByLayer nodes).map subgraphBlock)
    ++ String.join (edges.map edgeLine)
    ++ styleBlock
    ++ String.join ((groupByLayer nodes).flatMap fun g => g.2.map (classLine g.1))

/-- Node list of the lineage-chain resolution: the CTE rows ordered by
`(layer_id, name)`, each assembled into a response node. -/
def lineageNodes (s : Store) (tn ln : String) : List LineageNode :=
  (sortBy chainRowLe (lineageChain s tn ln)).map (toLineageNode s)

/-- POST handler of the mermaid endpoint: validation of the two required
fields, lineage-chain resolution, edge construction, metadata and diagram
synthesis.  The request's `direction` field is destructured but never used by
the handler. -/
def mermaidPOST (s : Store) (body : MermaidBody) : MermaidLineageResponse :=
  if truthyStr body.table_name = false ∨ truthyStr body.layer = false then
    { nodes := []
      edges := []
      mermaid_syntax := ""
      selected_table := jsOrElse body.table_name ""
      selected_layer := jsOrElse body.layer ""
      total_depth := 0
      layers_involved := []
      error := some "table_name and layer are required"
      status := 400 }
  else
    let tn := jsOrElse body.table_name ""
    let ln := jsOrElse body.layer ""
    let nodes := lineageNodes s tn ln
    let edges := buildEdges s nodes
    { nodes := nodes
      edges := edges
      mermaid_syntax := mermaidSynth nodes edges
      selected_table := tn
      selected_layer := ln
      total_depth :=
        if 0 < nodes.length then (nodes.map LineageNode.depth).foldl Nat.max 0 else 0
      layers_involved := dedupFirst (nodes.map LineageNode.layer)
      error := none
      status := 200 }

-- ===========================================================================
-- Relationships route (src/app/api/lineage/relationships/route.ts)
-- ===========================================================================

/-- Output row of the relationships endpoint (interface `Relationship`). -/
structure Relationship where
  id : Nat
  relationship_type : String
  description : Option String
  confidence_score : Rat
  source_table : String
  source_table_id : Nat
  source_layer : String
  target_table : String
  target_table_id : Nat
  target_layer : String
  direction : String
deriving DecidableEq, Repr

/-- Summary block of the relationships endpoint. -/
structure RelationshipSummary where
  total : Nat
  upstream : Nat
  downstream : Nat
  avg_confidence : Rat
deriving DecidableEq, Repr

/-- Response of the relationships endpoint, with its HTTP status. -/
structure RelationshipResponse where
  relationships : List Relationship
  summary : RelationshipSummary
  error : Option String
  status : Nat
deriving DecidableEq, Repr

/-- Join of `table_relationships` with both endpoint tables and their layers,
the `direction` column computed by `CASE WHEN tr.source_table_id = $1 THEN
'downstream' ELSE 'upstream' END` for the id-based query. -/
def relJoinedById (s : Store) (tid : Int) : List Relationship :=
  s.table_relationships.flatMap fun tr =>
    s.tables.flatMap fun st =>
      if tr.source_table_id = st.id then
        s.tables.flatMap fun tt =>
          if tr.target_table_id = tt.id then
            s.layers.flatMap fun sl =>
              if st.layer_id = sl.id then
                s.layers.filterMap fun tl =>
                  if tt.layer_id = tl.id then
                    some
                      { id := tr.id
                        relationship_type := tr.relationship_type
                        description := tr.description
                        confidence_score := tr.confidence_score
                        source_table := st.name
                        source_table_id := st.id
                        source_layer := sl.name
                        target_table := tt.name
                        target_table_id := tt.id
                        target_layer := tl.name
                        direction :=
                          if (tr.source_table_id : Int) = tid then "downstream"
                          else "upstream" }
                  else none
              else []
          else []
      else []

/-- The same join for the name-based query, the `direction` column computed by
`CASE WHEN st.name = $1 THEN 'downstream' ELSE 'upstream' END`. -/
def relJoinedByName (s : Store) (tname : String) : List Relationship :=
  s.table_relationships.flatMap fun tr =>
    s.tables.flatMap fun st =>
      if tr.source_table_id = st.id then
        s.tables.flatMap fun tt =>
          if tr.target_table_id = tt.id then
            s.layers.flatMap fun sl =>
              if st.layer_id = sl.id then
                s.layers.filterMap fun tl =>
                  if tt.layer_id = tl.id then
                    some
                      { id := tr.id
                        relationship_type := tr.relationship_type
                        description := tr.description
                        confidence_score := tr.confidence_score
                        source_table := st.name
                        source_table_id := st.id
                        source_layer := sl.name
                        target_table := tt.name
                        target_table_id := tt.id
                        target_layer := tl.name
                        direction := if st.name = tname then "downstream" else "upstream" }
                  else none
              else []
          else []
      else []

/-- The same join for the no-parameter query, with constant direction
`'both'`. -/
def relJoinedAll (s : Store) : List Relationship :=
  s.table_relationships.flatMap fun tr =>
    s.tables.flatMap fun st =>
      if tr.source_table_id = st.id then
        s.tables.flatMap fun tt =>
          if tr.target_table_id = tt.id then
            s.layers.flatMap fun sl =>
              if st.layer_id = sl.id then
                s.layers.filterMap fun tl =>
                  if tt.layer_id = tl.id then
                    some
                      { id := tr.id
                        relationship_type := tr.relationship_type
                        description := tr.description
                        confidence_score := tr.confidence_score
                        source_table := st.name
                        source_table_id := st.id
                        source_layer := sl.name
                        target_table := tt.name
                        target_table_id := tt.id
                        target_layer := tl.name
                        direction := "both" }
                  else none
              else []
          else []
      else []

/-- Direction filter of the id-based query (`tr.target_table_id = $1`,
`tr.source_table_id = $1`, or the disjunction). -/
def relWhereById (dir : String) (tid : Int) (r : Relationship) : Bool :=
  if dir = "upstream" then (r.target_table_id : Int) = tid
  else if dir = "downstream" then (r.source_table_id : Int) = tid
  else (r.source_table_id : Int) = tid ∨ (r.target_table_id : Int) = tid

/-- Direction filter of the name-based query (`tt.name = $1`, `st.name = $1`,
or the disjunction). -/
def relWhereByName (dir : String) (tname : String) (r : Relationship) : Bool :=
  if dir = "upstream" then r.target_table = tname
  else if dir = "downstream" then r.source_table = tname
  else r.source_table = tname ∨ r.target_table = tname

/-- Sort order of `ORDER BY tr.confidence_score DESC`. -/
def relOrder (a b : Relationship) : Bool :=
  b.confidence_score ≤ a.confidence_score

/-- Success response assembly shared by the three query modes: summary counts
by direction label and the arithmetic mean of the confidences. -/
def relResponse (rs : List Relationship) : RelationshipResponse :=
  { relationships := rs
    summary :=
      { total := rs.length
        upstream := (rs.filter fun r => r.direction = "upstream").length
        downstream := (rs.filter fun r => r.direction = "downstream").length
        avg_confidence :=
          if 0 < rs.length then
            ((rs.map Relationship.confidence_score).foldl (· + ·) 0) / (rs.length : Rat)
          else 0 }
    error := none
    status := 200 }

/-- GET handler of the relationships endpoint: the three query parameters as
returned by `searchParams.get` (absent = `none`), direction defaulting to
`'both'`.  A present but non-numeric `table_id` produces the `'Invalid table
ID'` response, which the source returns without a status option (HTTP 200). -/
def relationshipsGET (s : Store) (table_id table_name direction : Option String) :
    RelationshipResponse :=
  let dir := jsOrElse direction "both"
  if truthyStr table_id = true then
    match parseIntJS (jsOrElse table_id "") with
    | none =>
      { relationships := []
        summary := { total := 0, upstream := 0, downstream := 0, avg_confidence := 0 }
        error := some "Invalid table ID"
        status := 200 }
    | some tid =>
      relResponse (sortBy relOrder ((relJoinedById s tid).filter (relWhereById dir tid)))
  else if truthyStr table_name = true then
    let tname := jsOrElse table_name ""
    relResponse (sortBy relOrder ((relJoinedByName s tname).filter (relWhereByName dir tname)))
  else
    relResponse (sortBy relOrder (relJoinedAll s))

-- ===========================================================================
-- Search route (src/app/api/lineage/search/route.ts)
-- ===========================================================================

/-- Table hit of the search endpoint (interface `SearchTable`). -/
structure SearchTable where
  id : Nat
  name : String
  description : Option String
  layer : String
deriving DecidableEq, Repr

/-- Column hit of the search endpoint (interface `SearchColumn`). -/
structure SearchColumn where
  id : Nat
  name : String
  data_type : String
  table_name : String
  layer : String
deriving DecidableEq, Repr

/-- Transformation hit of the search endpoint (interface
`SearchTransformation`). -/
structure SearchTransformation where
  id : Nat
  name : String
  description : Option String
  transformation_type : String
  source_table : String
  target_table : String
deriving DecidableEq, Repr

/-- Combined result bundle of the search endpoint. -/
structure SearchResults where
  tables : List SearchTable
  columns : List SearchColumn
  transformations : List SearchTransformation
  total : Nat
deriving DecidableEq, Repr

/-- Suggestion block of the search endpoint. -/
structure SearchSuggestions where
  tables : List String
  layers : List String
deriving DecidableEq, Repr

/-- Response of the search endpoint, with its HTTP status. -/
structure SearchResponse where
  query : String
  results : SearchResults
  suggestions : SearchSuggestions
  error : Option String
  status : Nat
deriving DecidableEq, Repr

/-- Table search: name or description `ILIKE '%q%'`, ordered by name, first
10 rows. -/
def searchTables (s : Store) (q : String) : List SearchTable :=
  (sortBy (fun a b => strLe a.name b.name)
    (s.tables.flatMap fun t =>
      s.layers.filterMap fun l =>
        if t.layer_id = l.id ∧
            (ilikeContains (some t.name) q || ilikeContains t.description q) = true then
          some ⟨t.id, t.name, t.description, l.name⟩
        else none)).take 10

/-- Column search: column name `ILIKE '%q%'`, ordered by name, first 10
rows. -/
def searchColumns (s : Store) (q : String) : List SearchColumn :=
  (sortBy (fun a b => strLe a.name b.name)
    (s.columns.flatMap fun c =>
      s.tables.flatMap fun t =>
        if c.table_id = t.id then
          s.layers.filterMap fun l =>
            if c.layer_id = l.id ∧ ilikeContains (some c.name) q = true then
              some ⟨c.id, c.name, c.data_type, t.name, l.name⟩
            else none
        else [])).take 10

/-- Transformation search: name or description `ILIKE '%q%'`, ordered by
confidence descending, first 10 rows. -/
def searchTransformations (s : Store) (q : String) : List SearchTransformation :=
  (sortBy (fun a b => b.1 ≤ a.1)
    (s.transformations.flatMap fun t =>
      s.tables.flatMap fun st =>
        if t.source_table_id = st.id then
          s.tables.filterMap fun tt =>
            if t.target_table_id = tt.id ∧
                (ilikeContains (some t.name) q || ilikeContains t.description q) = true then
              some (t.confidence_score,
                (⟨t.id, t.name, t.description, t.transformation_type, st.name, tt.name⟩ :
                  SearchTransformation))
            else none
        else [])).take 10 |>.map Prod.snd

/-- GET handler of the search endpoint: a missing, empty or one-character
query is rejected with status 400 before any store query; otherwise the three
entity searches run according to the `type` filter and the suggestion lists
are derived from the table hits. -/
def searchGET (s : Store) (q ty : Option String) : SearchResponse :=
  let typ := jsOrElse ty "all"
  if truthyStr q = false ∨ (jsOrElse q "").length < 2 then
    { query := jsOrElse q ""
      results := { tables := [], columns := [], transformations := [], total := 0 }
      suggestions := { tables := [], layers := [] }
      error := some "Query must be at least 2 characters long"
      status := 400 }
  else
    let qs := jsOrElse q ""
    let tables := if typ = "all" ∨ typ = "tables" then searchTables s qs else []
    let columns := if typ = "all" ∨ typ = "columns" then searchColumns s qs else []
    let transformations :=
      if typ = "all" ∨ typ = "transformations" then searchTransformations s qs else []
    { query := qs
      results :=
        { tables := tables
          columns := columns
          transformations := transformations
          total := tables.length + columns.length + transformations.length }
      suggestions :=
        { tables := (tables.take 3).map SearchTable.name
          layers := (dedupFirst (tables.map SearchTable.layer)).take 3 }
      error := none
      status := 200 }

-- ===========================================================================
-- Transformation lookup (POST handler of src/app/api/lineage/tables/route.ts)
-- ===========================================================================

/-- Output row of the transformation lookup (interface `Transformation`). -/
structure Transformation where
  id : Nat
  name : String
  description : Option String
  source_table : String
  target_table : String
  source_layer : String
  target_layer : String
  transformation_type : String
  confidence_score : Rat
  created_at : Nat
  script : Option String
  status : Option String
deriving DecidableEq, Repr

/-- Summary block of the transformation lookup. -/
structure TransformationSummary where
  total : Nat
  table_name : String
  layers_involved : List String
  avg_confidence : Rat
deriving DecidableEq, Repr

/-- Response of the transformation lookup, with its HTTP status. -/
structure TransformationResponse where
  transformations : List Transformation
  summary : TransformationSummary
  error : Option String
  status : Nat
deriving DecidableEq, Repr

/-- Request body of the transformation lookup (interface
`TransformationRequestBody`). -/
structure TransfBody where
  table_name : Option String
  table_id : Option Int
  source_layer : Option String
  target_layer : Option String
  direction : Option String
deriving DecidableEq, Repr

/-- Truthiness of an optional number in JavaScript: `undefined` and `0` are
falsy. -/
def truthyInt (o : Option Int) : Bool :=
  match o with
  | none => false
  | some n => if n = 0 then false else true

/-- One row of the transformations join (`transformations` with source/target
tables and their layers), kept with all join partners so the `ORDER BY`
columns remain accessible. -/
structure TransfJoinRow where
  tr : TransfRow
  st : TableRow
  tt : TableRow
  sl : LayerRow
  tl : LayerRow
deriving DecidableEq, Repr

/-- Full join of `transformations` with `tables` (twice) and `layers`
(twice). -/
def transfJoinAll (s : Store) : List TransfJoinRow :=
  s.transformations.flatMap fun tr =>
    s.tables.flatMap fun st =>
      if tr.source_table_id = st.id then
        s.tables.flatMap fun tt =>
          if tr.target_table_id = tt.id then
            s.layers.flatMap fun sl =>
              if st.layer_id = sl.id then
                s.layers.filterMap fun tl =>
                  if tt.layer_id = tl.id then some ⟨tr, st, tt, sl, tl⟩ else none
              else []
          else []
      else []

/-- Where clause of the table-scoped query: by table name or table id,
restricted by the requested direction. -/
def transfWhere (table_name : Option String) (table_id : Option Int) (dir : String)
    (r : TransfJoinRow) : Bool :=
  if truthyStr table_name = true then
    let t := jsOrElse table_name ""
    if dir = "upstream" then r.tt.name = t
    else if dir = "downstream" then r.st.name = t
    else r.st.name = t ∨ r.tt.name = t
  else if truthyInt table_id = true then
    let i := (table_id.getD 0)
    if dir = "upstream" then (r.tr.target_table_id : Int) = i
    else if dir = "downstream" then (r.tr.source_table_id : Int) = i
    else (r.tr.source_table_id : Int) = i ∨ (r.tr.target_table_id : Int) = i
  else false

/-- Sort order of `ORDER BY sl.id, tl.id, t.created_at DESC`. -/
def transfOrderTable (a b : TransfJoinRow) : Bool :=
  if a.sl.id < b.sl.id then true
  else if a.sl.id = b.sl.id then
    if a.tl.id < b.tl.id then true
    else if a.tl.id = b.tl.id then b.tr.created_at ≤ a.tr.created_at
    else false
  else false

/-- Sort order of `ORDER BY t.created_at DESC`. -/
def transfOrderCreated (a b : TransfJoinRow) : Bool :=
  b.tr.created_at ≤ a.tr.created_at

/-- Mapping of a join row to an output row; `confidence_score` is the literal
`1.0` of the source (commented there as a default because the column is not in
the schema). -/
def toTransformation (r : TransfJoinRow) : Transformation :=
  { id := r.tr.id
    name := r.tr.name
    description := r.tr.description
    source_table := r.st.name
    target_table := r.tt.name
    source_layer := r.sl.name
    target_layer := r.tl.name
    transformation_type := r.tr.transformation_type
    confidence_score := 1
    created_at := r.tr.created_at
    script := r.tr.script
    status := r.tr.status }

/-- POST handler of the transformation lookup: the table-scoped branch (table
name or id truthy), the layer-pair branch, and the validation failure branch.
Both query branches hard-code `confidence_score = 1.0` on every row and
`avg_confidence = 1.0` in the summary. -/
def transformationsPOST (s : Store) (b : TransfBody) : TransformationResponse :=
  let dir := b.direction.getD "both"
  if (truthyStr b.table_name || truthyInt b.table_id) = true then
    let rows := sortBy transfOrderTable ((transfJoinAll s).filter (transfWhere b.table_name b.table_id dir))
    let transformations := rows.map toTransformation
    { transformations := transformations
      summary :=
        { total := transformations.length
          table_name :=
            jsOrElse b.table_name ("Table ID " ++ toString (b.table_id.getD 0))
          layers_involved :=
            dedupFirst (transformations.map Transformation.source_layer
              ++ transformations.map Transformation.target_layer)
          avg_confidence := 1 }
      error := none
      status := 200 }
  else if (truthyStr b.source_layer && truthyStr b.target_layer) = true then
    let src := jsOrElse b.source_layer ""
    let tgt := jsOrElse b.target_layer ""
    let rows := sortBy transfOrderCreated
      ((transfJoinAll s).filter fun r => r.sl.name = src ∧ r.tl.name = tgt)
    let transformations := rows.map toTransformation
    { transformations := transformations
      summary :=
        { total := transformations.length
          table_name := src ++ " → " ++ tgt
          layers_involved := [src, tgt]
          avg_confidence := 1 }
      error := none
      status := 200 }
  else
    { transformations := []
      summary := { total := 0, table_name := "", layers_involved := [], avg_confidence := 0 }
      error := some "Either table_name/table_id or source_layer/target_layer must be provided"
      status := 400 }

-- ===========================================================================
-- Concrete stores and requests used as counterexamples and witnesses
-- ===========================================================================

/-- Sortedness predicate of the assembled node list: ascending by
`(layer_id, name)`. -/
def nodeOrdered (a b : LineageNode) : Prop :=
  a.layer_id < b.layer_id ∨ (a.layer_id = b.layer_id ∧ strLe a.name b.name = true)

/-- Diamond store: `A` (bronze) feeds `B` and `C` (silver), which both feed
`D` (gold), so two traversal paths reach `D`. -/
def storeDiamond : Store :=
  { layers := [⟨1, "bronze"⟩, ⟨2, "silver"⟩, ⟨3, "gold"⟩]
    tables := [⟨1, "A", 1, none⟩, ⟨2, "B", 2, none⟩, ⟨3, "C", 2, none⟩, ⟨4, "D", 3, none⟩]
    columns := []
    transformations :=
      [⟨1, "t1", none, 1, 2, "cleansing", none, none, 0, 1⟩,
       ⟨2, "t2", none, 1, 3, "cleansing", none, none, 0, 1⟩,
       ⟨3, "t3", none, 2, 4, "aggregation", none, none, 0, 1⟩,
       ⟨4, "t4", none, 3, 4, "aggregation", none, none, 0, 1⟩]
    table_relationships := [] }

/-- Request for the lineage chain of `A`/bronze with both directions. -/
def bodyA : MermaidBody := ⟨some "A", some "bronze", some "both"⟩

/-- Skip store: `A` (bronze) feeds `B` (silver) and `D` (gold) directly, and
`B` feeds `D` again, so `D` is reached at depth 1 and again at depth 2. -/
def storeSkip : Store :=
  { layers := [⟨1, "bronze"⟩, ⟨2, "silver"⟩, ⟨3, "gold"⟩]
    tables := [⟨1, "A", 1, none⟩, ⟨2, "B", 2, none⟩, ⟨4, "D", 3, none⟩]
    columns := []
    transformations :=
      [⟨1, "t1", none, 1, 2, "cleansing", none, none, 0, 1⟩,
       ⟨2, "t2", none, 1, 4, "aggregation", none, none, 0, 1⟩,
       ⟨3, "t3", none, 2, 4, "aggregation", none, none, 0, 1⟩]
    table_relationships := [] }

/-- Two-table store with a single transformation `A → B`; `B` is strictly
downstream of `A` and `A` has no upstream tables. -/
def storeLine : Store :=
  { layers := [⟨1, "bronze"⟩, ⟨2, "silver"⟩]
    tables := [⟨1, "A", 1, none⟩, ⟨2, "B", 2, none⟩]
    columns := []
    transformations := [⟨1, "t1", none, 1, 2, "cleansing", none, none, 0, 1⟩]
    table_relationships := [] }

/-- Upstream-only request on `A`/bronze against `storeLine`. -/
def bodyUpstreamA : MermaidBody := ⟨some "A", some "bronze", some "upstream"⟩

/-- Cycle store: `A → B → C → A`, all in the bronze layer. -/
def storeCycle : Store :=
  { layers := [⟨1, "bronze"⟩]
    tables := [⟨1, "A", 1, none⟩, ⟨2, "B", 1, none⟩, ⟨3, "C", 1, none⟩]
    columns := []
    transformations :=
      [⟨1, "t1", none, 1, 2, "step", none, none, 0, 1⟩,
       ⟨2, "t2", none, 2, 3, "step", none, none, 0, 1⟩,
       ⟨3, "t3", none, 3, 1, "step", none, none, 0, 1⟩]
    table_relationships := [] }

/-- One assembled node living in a layer named `platinum`, which is none of
bronze/silver/gold. -/
def platinumNode : LineageNode := ⟨9, "pt", "platinum", 4, 0, 0, "pt table"⟩

/-- Store with a single self-loop relationship edge on table `T`: `T` is both
the source and the target of the edge. -/
def storeSelfLoop : Store :=
  { layers := [⟨1, "bronze"⟩]
    tables := [⟨1, "T", 1, none⟩]
    columns := []
    transformations := []
    table_relationships := [⟨1, "reference", none, 1, 1, 1⟩] }

/-- Store with no rows at all. -/
def emptyStore : Store :=
  { layers := [], tables := [], columns := [], transformations := [], table_relationships := [] }

/-- Table-scoped transformation lookup on table name `A`. -/
def bodyTransfA : TransfBody := ⟨some "A", none, none, none, none⟩

/-- The first edge the diamond lineage resolution produces. -/
def edgeAB : LineageEdge := ⟨"A", "B", "bronze", "silver", "cleansing"⟩

/-- The single relationship row `storeSelfLoop` returns for table id 1. -/
def selfRel : Relationship :=
  ⟨1, "reference", none, 1, "T", 1, "bronze", "T", 1, "bronze", "downstream"⟩

/-- First output row of the table-scoped transformation lookup on `A` against
`storeDiamond`. -/
def transfOutA : Transformation :=
  ⟨1, "t1", none, "A", "B", "bronze", "silver", "cleansing", 1, 0, none, none⟩

-- ===========================================================================
-- Helper lemmas
-- ===========================================================================

theorem mem_ite_nil {α : Type} {c : Prop} [Decidable c] {l : List α} {x : α} :
    x ∈ (if c then l else []) ↔ c ∧ x ∈ l := by
  by_cases h : c <;> simp [h]

theorem ite_some_none_eq {α : Type} {c : Prop} [Decidable c] {v r : α} :
    (if c then some v else none) = some r ↔ c ∧ v = r := by
  by_cases h : c <;> simp [h]

theorem mem_insertBy {α : Type} (le : α → α → Bool) (a x : α) (l : List α) :
    x ∈ insertBy le a l ↔ x = a ∨ x ∈ l := by
  induction l with
  | nil => simp [insertBy]
  | cons b t ih =>
    simp only [insertBy]
    split
    · simp [List.mem_cons]
    · simp only [List.mem_cons, ih]
      tauto

theorem mem_sortBy {α : Type} (le : α → α → Bool) (x : α) (l : List α) :
    x ∈ sortBy le l ↔ x ∈ l := by
  induction l with
  | nil => simp [sortBy]
  | cons a t ih =>
    simp only [sortBy, mem_insertBy, ih, List.mem_cons]

theorem chain'_insertBy {α : Type} (le : α → α → Bool)
    (htot : ∀ a b, le a b = true ∨ le b a = true) (a : α) (l : List α)
    (h : List.Chain' (fun x y => le x y = true) l) :
    List.Chain' (fun x y => le x y = true) (insertBy le a l) := by
  induction l with
  | nil => simp [insertBy]
  | cons b t ih =>
    simp only [insertBy]
    split
    · rename_i hab
      exact List.Chain'.cons hab h
    · rename_i hab
      have hba : le b a = true := by
        rcases htot a b with h1 | h1
        · exact absurd h1 hab
        · exact h1
      have ht := ih h.tail
      rw [List.chain'_cons']
      refine ⟨?_, ht⟩
      intro y hy
      cases t with
      | nil =>
        simp only [insertBy, List.head?_cons, Option.mem_def, Option.some.injEq] at hy
        subst hy
        exact hba
      | cons c u =>
        simp only [insertBy] at hy
        split at hy
        · simp only [List.head?_cons, Option.mem_def, Option.some.injEq] at hy
          subst hy
          exact hba
        · simp only [List.head?_cons, Option.mem_def, Option.some.injEq] at hy
          subst hy
          exact (List.chain'_cons.mp h).1

theorem chain'_sortBy {α : Type} (le : α → α → Bool)
    (htot : ∀ a b, le a b = true ∨ le b a = true) (l : List α) :
    List.Chain' (fun x y => le x y = true) (sortBy le l) := by
  induction l with
  | nil => simp [sortBy]
  | cons a t ih => exact chain'_insertBy le htot a (sortBy le t) ih

theorem charListLe_total : ∀ as bs : List Char, charListLe as bs = true ∨ charListLe bs as = true := by
  intro as
  induction as with
  | nil => intro bs; left; rfl
  | cons a as ih =>
    intro bs
    cases bs with
    | nil => right; rfl
    | cons b bs =>
      simp only [charListLe]
      rcases Nat.lt_trichotomy a.toNat b.toNat with h | h | h
      · left; rw [if_pos h]
      · rcases ih bs with h2 | h2
        · left; rw [if_neg (by omega), if_pos h]; exact h2
        · right; rw [if_neg (by omega), if_pos h.symm]; exact h2
      · right; rw [if_pos h]

theorem strLe_total (a b : String) : strLe a b = true ∨ strLe b a = true :=
  charListLe_total a.data b.data

theorem chainRowLe_total (a b : ChainRow) : chainRowLe a b = true ∨ chainRowLe b a = true := by
  simp only [chainRowLe]
  rcases Nat.lt_trichotomy a.layer_id b.layer_id with h | h | h
  · left; rw [if_pos h]
  · rcases strLe_total a.name b.name with h2 | h2
    · left; rw [if_neg (by omega), if_pos h]; exact h2
    · right; rw [if_neg (by omega), if_pos h.symm]; exact h2
  · right; rw [if_pos h]

theorem chainRowLe_eq_true_iff (a b : ChainRow) :
    chainRowLe a b = true ↔
      a.layer_id < b.layer_id ∨ (a.layer_id = b.layer_id ∧ strLe a.name b.name = true) := by
  simp only [chainRowLe]
  split
  · rename_i h; simp [h]
  · rename_i h
    split
    · rename_i h2; simp [h, h2]
    · rename_i h2; simp [h, h2]

theorem relOrder_total (a b : Relationship) : relOrder a b = true ∨ relOrder b a = true := by
  simp only [relOrder, decide_eq_true_eq]
  exact le_total b.confidence_score a.confidence_score

theorem mem_seedRows {s : Store} {tn ln : String} {r : ChainRow} :
    r ∈ seedRows s tn ln ↔
      ∃ t ∈ s.tables, ∃ l ∈ s.layers,
        (t.layer_id = l.id ∧ t.name = tn ∧ l.name = ln) ∧
        (⟨t.id, t.name, l.name, l.id, 0, t.description⟩ : ChainRow) = r := by
  simp only [seedRows, List.mem_flatMap, List.mem_filterMap, ite_some_none_eq]

theorem mem_chainStep {s : Store} {rows : List ChainRow} {r : ChainRow} :
    r ∈ chainStep s rows ↔
      ∃ lc ∈ rows, lc.depth < 3 ∧
        ∃ tr ∈ s.transformations, lc.id = tr.source_table_id ∧
          ∃ tt ∈ s.tables, tr.target_table_id = tt.id ∧
            ∃ tl ∈ s.layers, tt.layer_id = tl.id ∧
              (⟨tt.id, tt.name, tl.name, tl.id, lc.depth + 1, tt.description⟩ : ChainRow) = r := by
  simp only [chainStep, List.mem_flatMap, mem_ite_nil, List.mem_filterMap, ite_some_none_eq]

theorem mem_edgeQuery {s : Store} {sid tid : Nat} {x : TransfJoin} :
    x ∈ edgeQuery s sid tid ↔
      ∃ tr ∈ s.transformations, ∃ st ∈ s.tables, tr.source_table_id = st.id ∧
        ∃ tt ∈ s.tables, tr.target_table_id = tt.id ∧
          ∃ sl ∈ s.layers, st.layer_id = sl.id ∧
            ∃ tl ∈ s.layers,
              (tt.layer_id = tl.id ∧ st.id = sid ∧ tt.id = tid) ∧
              (⟨tr.transformation_type, st.name, tt.name, sl.name, tl.name⟩ : TransfJoin) = x := by
  simp only [edgeQuery, List.mem_flatMap, mem_ite_nil, List.mem_filterMap, ite_some_none_eq]

theorem mem_relJoinedById {s : Store} {tid : Int} {r : Relationship} :
    r ∈ relJoinedById s tid ↔
      ∃ tr ∈ s.table_relationships, ∃ st ∈ s.tables, tr.source_table_id = st.id ∧
        ∃ tt ∈ s.tables, tr.target_table_id = tt.id ∧
          ∃ sl ∈ s.layers, st.layer_id = sl.id ∧
            ∃ tl ∈ s.layers, tt.layer_id = tl.id ∧
              ({ id := tr.id
                 relationship_type := tr.relationship_type
                 description := tr.description
                 confidence_score := tr.confidence_score
                 source_table := st.name
                 source_table_id := st.id
                 source_layer := sl.name
                 target_table := tt.name
                 target_table_id := tt.id
                 target_layer := tl.name
                 direction :=
                   if (tr.source_table_id : Int) = tid then "downstream"
                   else "upstream" } : Relationship) = r := by
  simp only [relJoinedById, List.mem_flatMap, mem_ite_nil, List.mem_filterMap, ite_some_none_eq]

theorem mem_relJoinedByName {s : Store} {tname : String} {r : Relationship} :
    r ∈ relJoinedByName s tname ↔
      ∃ tr ∈ s.table_relationships, ∃ st ∈ s.tables, tr.source_table_id = st.id ∧
        ∃ tt ∈ s.tables, tr.target_table_id = tt.id ∧
          ∃ sl ∈ s.layers, st.layer_id = sl.id ∧
            ∃ tl ∈ s.layers, tt.layer_id = tl.id ∧
              ({ id := tr.id
                 relationship_type := tr.relationship_type
                 description := tr.description
                 confidence_score := tr.confidence_score
                 source_table := st.name
                 source_table_id := st.id
                 source_layer := sl.name
                 target_table := tt.name
                 target_table_id := tt.id
                 target_layer := tl.name
                 direction := if st.name = tname then "downstream" else "upstream" } :
                Relationship) = r := by
  simp only [relJoinedByName, List.mem_flatMap, mem_ite_nil, List.mem_filterMap, ite_some_none_eq]

theorem depth_of_mem_level (s : Store) (tn ln : String) :
    ∀ n r, r ∈ lineageLevels s tn ln n → r.depth = n := by
  intro n
  induction n with
  | zero =>
    intro r hr
    rw [lineageLevels, mem_seedRows] at hr
    obtain ⟨t, _, l, _, _, hr⟩ := hr
    rw [← hr]
  | succ n ih =>
    intro r hr
    rw [lineageLevels, mem_chainStep] at hr
    obtain ⟨lc, hlc, _, tr, _, _, tt, _, _, tl, _, _, hr⟩ := hr
    rw [← hr]
    show lc.depth + 1 = n + 1
    have := ih lc hlc
    omega

theorem chainStep_nil (s : Store) : chainStep s [] = [] := rfl

theorem lineageLevels_eq_nil_of_ge (s : Store) (tn ln : String) :
    ∀ n, 4 ≤ n → lineageLevels s tn ln n = [] := by
  intro n hn
  induction n with
  | zero => omega
  | succ n ih =>
    by_cases h4 : 4 ≤ n
    · rw [lineageLevels, ih h4, chainStep_nil]
    · have hn3 : n = 3 := by omega
      subst hn3
      rw [lineageLevels]
      rw [List.eq_nil_iff_forall_not_mem]
      intro r hr
      rw [mem_chainStep] at hr
      obtain ⟨lc, hlc, hd, _⟩ := hr
      have := depth_of_mem_level s tn ln 3 lc hlc
      omega

theorem lineageChain_depth_le (s : Store) (tn ln : String) :
    ∀ r ∈ lineageChain s tn ln, r.depth ≤ 3 := by
  intro r hr
  rw [lineageChain, List.mem_flatMap] at hr
  obtain ⟨n, hn, hr⟩ := hr
  rw [List.mem_range] at hn
  have := depth_of_mem_level s tn ln n r hr
  omega

theorem lineageChain_eq_nil (s : Store) (tn ln : String) (h : seedRows s tn ln = []) :
    lineageChain s tn ln = [] := by
  have hlev : ∀ n, lineageLevels s tn ln n = [] := by
    intro n
    induction n with
    | zero => exact h
    | succ n ih => rw [lineageLevels, ih, chainStep_nil]
  rw [lineageChain, List.flatMap_eq_nil_iff]
  intro n _
  exact hlev n

theorem buildEdges_mem (s : Store) :
    ∀ nodes e, e ∈ buildEdges s nodes →
      ∃ pre a b post tj tjs,
        nodes = pre ++ a :: b :: post ∧
        edgeQuery s a.id b.id = tj :: tjs ∧
        e = ⟨a.name, b.name, a.layer, b.layer, tj.transformation_type⟩ := by
  intro nodes
  induction nodes with
  | nil => intro e he; simp [buildEdges] at he
  | cons a t ih =>
    intro e he
    cases t with
    | nil => simp [buildEdges] at he
    | cons b rest =>
      simp only [buildEdges] at he
      rw [List.mem_append] at he
      rcases he with he | he
      · rcases hq : edgeQuery s a.id b.id with _ | ⟨tj, tjs⟩
        · rw [hq] at he
          simp at he
        · rw [hq] at he
          simp only [List.mem_singleton] at he
          exact ⟨[], a, b, rest, tj, tjs, rfl, hq, he⟩
      · obtain ⟨pre, a', b', post, tj, tjs, heq, hq, hee⟩ := ih e he
        exact ⟨a :: pre, a', b', post, tj, tjs, by rw [heq]; rfl, hq, hee⟩

theorem buildEdges_length (s : Store) :
    ∀ nodes, (buildEdges s nodes).length ≤ nodes.length - 1 := by
  intro nodes
  induction nodes with
  | nil => simp [buildEdges]
  | cons a t ih =>
    cases t with
    | nil => simp [buildEdges]
    | cons b rest =>
      rcases hq : edgeQuery s a.id b.id with _ | ⟨tj, tjs⟩
      · simp only [buildEdges, hq, List.nil_append, List.length_cons]
        have := ih
        simp only [List.length_cons] at this ⊢
        omega
      · simp only [buildEdges, hq, List.singleton_append, List.length_cons]
        have := ih
        simp only [List.length_cons] at this ⊢
        omega

theorem addToGroups_keys (n : LineageNode) :
    ∀ gs : List (String × List LineageNode),
      (addToGroups gs n).map Prod.fst =
        if n.layer ∈ gs.map Prod.fst then gs.map Prod.fst
        else gs.map Prod.fst ++ [n.layer] := by
  intro gs
  induction gs with
  | nil => simp [addToGroups]
  | cons g rest ih =>
    obtain ⟨k, ms⟩ := g
    simp only [addToGroups]
    split
    · rename_i hk
      simp [hk]
    · rename_i hk
      simp only [List.map_cons]
      rw [ih]
      by_cases hm : n.layer ∈ rest.map Prod.fst
      · rw [if_pos hm, if_pos (by simp [List.mem_cons, hm])]
      · rw [if_neg hm, if_neg ?_, List.cons_append]
        simp only [List.mem_cons]
        push_neg
        exact ⟨fun h => hk h.symm, hm⟩

theorem foldl_addToGroups_keys :
    ∀ (nodes : List LineageNode) (gs : List (String × List LineageNode)),
      (nodes.foldl addToGroups gs).map Prod.fst =
        gs.map Prod.fst ++ dedupFirstAux (gs.map Prod.fst) (nodes.map LineageNode.layer) := by
  intro nodes
  induction nodes with
  | nil => intro gs; simp [dedupFirstAux]
  | cons n rest ih =>
    intro gs
    simp only [List.foldl_cons, List.map_cons, dedupFirstAux]
    rw [ih (addToGroups gs n), addToGroups_keys n gs]
    by_cases hm : n.layer ∈ gs.map Prod.fst
    · rw [if_pos hm, if_pos hm]
    · rw [if_neg hm, if_neg hm]
      simp [List.append_assoc]

theorem groupByLayer_keys (nodes : List LineageNode) :
    (groupByLayer nodes).map Prod.fst = dedupFirst (nodes.map LineageNode.layer) := by
  rw [groupByLayer, foldl_addToGroups_keys]
  simp [dedupFirst]

theorem relJoinedById_direction {s : Store} {tid : Int} {r : Relationship}
    (h : r ∈ relJoinedById s tid) :
    r.direction = if (r.source_table_id : Int) = tid then "downstream" else "upstream" := by
  rw [mem_relJoinedById] at h
  obtain ⟨tr, _, st, _, hsrc, tt, _, _, sl, _, _, tl, _, _, hr⟩ := h
  rw [← hr]
  simp [hsrc]

theorem relJoinedByName_direction {s : Store} {tname : String} {r : Relationship}
    (h : r ∈ relJoinedByName s tname) :
    r.direction = if r.source_table = tname then "downstream" else "upstream" := by
  rw [mem_relJoinedByName] at h
  obtain ⟨tr, _, st, _, hsrc, tt, _, _, sl, _, _, tl, _, _, hr⟩ := h
  rw [← hr]

theorem relationshipsGET_byId (s : Store) (tidStr : String) (tid : Int) (dirp : Option String)
    (hne : tidStr ≠ "") (hparse : parseIntJS tidStr = some tid) :
    relationshipsGET s (some tidStr) none dirp =
      relResponse (sortBy relOrder
        ((relJoinedById s tid).filter (relWhereById (jsOrElse dirp "both") tid))) := by
  have h1 : truthyStr (some tidStr) = true := by simp [truthyStr, hne]
  have h2 : jsOrElse (some tidStr) "" = tidStr := by simp [jsOrElse, hne]
  simp only [relationshipsGET, h1, h2, hparse, if_true]

theorem relationshipsGET_byName (s : Store) (tname : String) (dirq : Option String)
    (hne : tname ≠ "") :
    relationshipsGET s none (some tname) dirq =
      relResponse (sortBy relOrder
        ((relJoinedByName s tname).filter (relWhereByName (jsOrElse dirq "both") tname))) := by
  have h1 : truthyStr (none : Option String) = false := rfl
  have h2 : truthyStr (some tname) = true := by simp [truthyStr, hne]
  have h3 : jsOrElse (some tname) "" = tname := by simp [jsOrElse, hne]
  simp only [relationshipsGET, h1, h2, h3, if_true, Bool.false_eq_true, if_false]

-- ===========================================================================
-- Claim theorems
-- ===========================================================================

/-- C1 (counterexample): the lineage-chain resolution does not deduplicate
nodes.  Against the diamond store (`A → B → D`, `A → C → D`) the request for
table `A` in the bronze layer returns table id 4 (`D`) twice, so the node list
does not contain each table identity at most once. -/
theorem c1_counterexample :
    ¬ List.Nodup ((mermaidPOST storeDiamond bodyA).nodes.map LineageNode.id) ∧
    ((mermaidPOST storeDiamond bodyA).nodes.map LineageNode.id).count 4 = 2 := by
  decide

/-- C1 (amended): the lineage-chain resolution keeps one node entry per
traversal path.  Whenever a level-`n` row with depth below the bound can step
to a target table through a transformation, the stepped row is added to level
`n + 1` and hence to the returned node list — even when the same table id was
already reached at a strictly smaller depth by an earlier encounter (the
recursive query uses `UNION ALL` and has no visited set). -/
theorem c1_no_dedup_amended (s : Store) (tn ln : String) (n m : Nat) (r r' : ChainRow)
    (hr : r ∈ lineageLevels s tn ln n) (hd : r.depth < 3)
    (tr : TransfRow) (htr : tr ∈ s.transformations) (hsrc : r.id = tr.source_table_id)
    (tt : TableRow) (htt : tt ∈ s.tables) (htgt : tr.target_table_id = tt.id)
    (tl : LayerRow) (htl : tl ∈ s.layers) (hlay : tt.layer_id = tl.id)
    (_hmn : m ≤ n) (_hr' : r' ∈ lineageLevels s tn ln m) (_hid : r'.id = tt.id)
    (_hlow : r'.depth < r.depth + 1) :
    (⟨tt.id, tt.name, tl.name, tl.id, r.depth + 1, tt.description⟩ : ChainRow) ∈
      lineageLevels s tn ln (n + 1) ∧
    toLineageNode s ⟨tt.id, tt.name, tl.name, tl.id, r.depth + 1, tt.description⟩ ∈
      lineageNodes s tn ln := by
  have hmem : (⟨tt.id, tt.name, tl.name, tl.id, r.depth + 1, tt.description⟩ : ChainRow) ∈
      lineageLevels s tn ln (n + 1) := by
    rw [lineageLevels, mem_chainStep]
    exact ⟨r, hr, hd, tr, htr, hsrc, tt, htt, htgt, tl, htl, hlay, rfl⟩
  refine ⟨hmem, ?_⟩
  have hn3 : n < 3 := by
    have := depth_of_mem_level s tn ln n r hr
    omega
  have hchain : (⟨tt.id, tt.name, tl.name, tl.id, r.depth + 1, tt.description⟩ : ChainRow) ∈
      lineageChain s tn ln := by
    rw [lineageChain, List.mem_flatMap]
    exact ⟨n + 1, by rw [List.mem_range]; omega, hmem⟩
  rw [lineageNodes]
  exact List.mem_map_of_mem _ ((mem_sortBy _ _ _).mpr hchain)

/-- C1 (witness): in the skip store (`A → B`, `A → D`, `B → D`), table `D` is
reached at depth 1 and the depth-1 row of `B` still adds a second entry for
`D` at depth 2. -/
theorem c1_witness :
    (⟨4, "D", "gold", 3, 2, none⟩ : ChainRow) ∈ lineageLevels storeSkip "A" "bronze" 2 ∧
    toLineageNode storeSkip ⟨4, "D", "gold", 3, 2, none⟩ ∈ lineageNodes storeSkip "A" "bronze" :=
  c1_no_dedup_amended storeSkip "A" "bronze" 1 1
    ⟨2, "B", "silver", 2, 1, none⟩ ⟨4, "D", "gold", 3, 1, none⟩
    (by decide) (by decide)
    ⟨3, "t3", none, 2, 4, "aggregation", none, none, 0, 1⟩ (by decide) (by decide)
    ⟨4, "D", 3, none⟩ (by decide) (by decide)
    ⟨3, "gold"⟩ (by decide) (by decide)
    (by decide) (by decide) (by decide) (by decide)

/-- C2 (counterexample): a lineage-chain request with `direction = 'upstream'`
on table `A` still returns `B`, although the store's only transformation goes
from `A` (id 1) to `B` (id 2), i.e. `B` is a downstream-only descendant of the
seed. -/
theorem c2_counterexample :
    (mermaidPOST storeLine bodyUpstreamA).nodes.map LineageNode.name = ["A", "B"] ∧
    (∀ tr ∈ storeLine.transformations, tr.source_table_id = 1 ∧ tr.target_table_id = 2) ∧
    storeLine.tables.map TableRow.id = [1, 2] := by
  decide

/-- C2 (amended): the `direction` field of the request body is parsed but
never used: two requests differing only in `direction` produce identical
responses, and the traversal always follows transformation edges downstream
from the seed. -/
theorem c2_direction_ignored (s : Store) (tn ln : Option String) (d d' : Option String) :
    mermaidPOST s ⟨tn, ln, d⟩ = mermaidPOST s ⟨tn, ln, d'⟩ := rfl

/-- C3 (counterexample): against the cycle `A → B → C → A`, traversal from `A`
returns `A` twice — once at depth 0 and again at depth 3 — so the seed IS
revisited. -/
theorem c3_counterexample :
    (((mermaidPOST storeCycle ⟨some "A", some "bronze", none⟩).nodes.filter
        fun n => n.id = 1).map LineageNode.depth) = [0, 3] ∧
    storeCycle.transformations.map (fun tr => (tr.source_table_id, tr.target_table_id)) =
      [(1, 2), (2, 3), (3, 1)] := by
  decide

/-- C3 (amended): the lineage-chain traversal always terminates — the
recursive query produces no rows at level 4 or beyond, and every returned row
has depth at most 3 — but cycle members may be revisited within the depth
bound (the bound is the only cycle guard). -/
theorem c3_cycle_termination_amended (s : Store) (tn ln : String) :
    (∀ n, 4 ≤ n → lineageLevels s tn ln n = []) ∧
    (∀ r ∈ lineageChain s tn ln, r.depth ≤ 3) :=
  ⟨lineageLevels_eq_nil_of_ge s tn ln, lineageChain_depth_le s tn ln⟩

/-- C3 (witness): level 5 of the cycle store's traversal is empty, and the
depth-3 revisit row of `A` obeys the depth bound. -/
theorem c3_witness :
    lineageLevels storeCycle "A" "bronze" 5 = [] ∧
    (⟨1, "A", "bronze", 1, 3, none⟩ : ChainRow).depth ≤ 3 :=
  ⟨(c3_cycle_termination_amended storeCycle "A" "bronze").1 5 (by decide),
   (c3_cycle_termination_amended storeCycle "A" "bronze").2
     ⟨1, "A", "bronze", 1, 3, none⟩ (by decide)⟩

/-- C4 (counterexample): a layer named `platinum` — none of bronze, silver,
gold — still receives the subtitle qualifier `Business Ready` in its subgraph
header, rather than no subtitle. -/
theorem c4_counterexample :
    subgraphHeader "platinum" = "    subgraph \"Platinum Layer - Business Ready\"\n" ∧
    ((groupByLayer [platinumNode]).map fun g => subgraphHeader g.1) =
      ["    subgraph \"Platinum Layer - Business Ready\"\n"] ∧
    layerDescription "platinum" = "Business Ready" := by
  decide

/-- C4 (amended): the synthesizer emits exactly one subgraph header per
distinct layer present in the node set (in first-occurrence order), titled
with the capitalized layer name; the subtitle is `Raw Data` for bronze,
`Cleansed Data` for silver, and `Business Ready` for every other layer name
(gold included). -/
theorem c4_subgraphs_amended (nodes : List LineageNode) :
    ((groupByLayer nodes).map fun g => subgraphHeader g.1) =
      (dedupFirst (nodes.map LineageNode.layer)).map subgraphHeader ∧
    subgraphHeader "bronze" = "    subgraph \"Bronze Layer - Raw Data\"\n" ∧
    subgraphHeader "silver" = "    subgraph \"Silver Layer - Cleansed Data\"\n" ∧
    (∀ l, l ≠ "bronze" → l ≠ "silver" → layerDescription l = "Business Ready") := by
  refine ⟨?_, by decide, by decide, ?_⟩
  · calc ((groupByLayer nodes).map fun g => subgraphHeader g.1)
        = ((groupByLayer nodes).map Prod.fst).map subgraphHeader := by
          rw [List.map_map]
          rfl
      _ = (dedupFirst (nodes.map LineageNode.layer)).map subgraphHeader := by
          rw [groupByLayer_keys]
  · intro l h1 h2
    simp [layerDescription, h1, h2]

/-- C4 (witness): for the platinum node the group headers are one per distinct
layer and the platinum subtitle is `Business Ready`. -/
theorem c4_witness :
    ((groupByLayer [platinumNode]).map fun g => subgraphHeader g.1) =
      (dedupFirst ([platinumNode].map LineageNode.layer)).map subgraphHeader ∧
    layerDescription "platinum" = "Business Ready" :=
  ⟨(c4_subgraphs_amended [platinumNode]).1,
   (c4_subgraphs_amended [platinumNode]).2.2.2 "platinum" (by decide) (by decide)⟩

/-- C5 (counterexample): on a store whose only relationship edge has table
`T` (id 1) as both source and target, the `direction=both` lookup on `T`
labels the edge `downstream` although `T` is the edge's target — so the
claimed equivalence "label is `upstream` iff T is the target" fails. -/
theorem c5_counterexample :
    ¬ (∀ r ∈ (relationshipsGET storeSelfLoop (some "1") none none).relationships,
        (r.direction = "upstream" ↔ r.target_table_id = 1)) ∧
    ((relationshipsGET storeSelfLoop (some "1") none none).relationships.map
        fun r => (r.direction, r.source_table_id, r.target_table_id)) =
      [("downstream", 1, 1)] := by
  decide

/-- C5 (amended): an upstream query returns exactly the joined edges where the
queried table is the target and a downstream query exactly those where it is
the source; each returned edge's `direction` label is `downstream` iff the
queried table matches the edge's source (by id in id mode, by name in name
mode) and `upstream` otherwise — so a self-loop edge is labelled `downstream`;
results are sorted by confidence descending. -/
theorem c5_direction_amended (s : Store) (tidStr : String) (tid : Int) (dirp : Option String)
    (hne : tidStr ≠ "") (hparse : parseIntJS tidStr = some tid) :
    (∀ r, r ∈ (relationshipsGET s (some tidStr) none (some "upstream")).relationships ↔
        r ∈ relJoinedById s tid ∧ (r.target_table_id : Int) = tid) ∧
    (∀ r, r ∈ (relationshipsGET s (some tidStr) none (some "downstream")).relationships ↔
        r ∈ relJoinedById s tid ∧ (r.source_table_id : Int) = tid) ∧
    (∀ r ∈ (relationshipsGET s (some tidStr) none dirp).relationships,
        (r.direction = "downstream" ↔ (r.source_table_id : Int) = tid) ∧
        (r.direction = "upstream" ↔ ¬ (r.source_table_id : Int) = tid)) ∧
    List.Chain' (fun a b => b.confidence_score ≤ a.confidence_score)
      (relationshipsGET s (some tidStr) none dirp).relationships ∧
    (∀ tname dirq r, tname ≠ "" →
        r ∈ (relationshipsGET s none (some tname) dirq).relationships →
        ((r.direction = "downstream" ↔ r.source_table = tname) ∧
         (r.direction = "upstream" ↔ ¬ r.source_table = tname))) := by
  refine ⟨?_, ?_, ?_, ?_, ?_⟩
  · intro r
    rw [relationshipsGET_byId s tidStr tid (some "upstream") hne hparse]
    show r ∈ sortBy relOrder _ ↔ _
    rw [mem_sortBy, List.mem_filter]
    have : relWhereById (jsOrElse (some "upstream") "both") tid r =
        decide ((r.target_table_id : Int) = tid) := rfl
    rw [this, decide_eq_true_eq]
  · intro r
    rw [relationshipsGET_byId s tidStr tid (some "downstream") hne hparse]
    show r ∈ sortBy relOrder _ ↔ _
    rw [mem_sortBy, List.mem_filter]
    have : relWhereById (jsOrElse (some "downstream") "both") tid r =
        decide ((r.source_table_id : Int) = tid) := rfl
    rw [this, decide_eq_true_eq]
  · intro r hr
    rw [relationshipsGET_byId s tidStr tid dirp hne hparse] at hr
    replace hr : r ∈ relJoinedById s tid := by
      have := (mem_sortBy relOrder r _).mp hr
      exact (List.mem_filter.mp this).1
    have hdir := relJoinedById_direction hr
    by_cases hsc : (r.source_table_id : Int) = tid
    · rw [hdir, if_pos hsc]
      constructor
      · exact ⟨fun _ => hsc, fun _ => rfl⟩
      · constructor
        · intro h
          exact absurd h (by decide)
        · intro h
          exact absurd hsc h
    · rw [hdir, if_neg hsc]
      constructor
      · constructor
        · intro h
          exact absurd h (by decide)
        · intro h
          exact absurd h hsc
      · exact ⟨fun _ => hsc, fun _ => rfl⟩
  · rw [relationshipsGET_byId s tidStr tid dirp hne hparse]
    show List.Chain' _ (sortBy relOrder _)
    refine List.Chain'.imp ?_ (chain'_sortBy relOrder relOrder_total _)
    intro a b hab
    simpa [relOrder] using hab
  · intro tname dirq r hne2 hr
    rw [relationshipsGET_byName s tname dirq hne2] at hr
    replace hr : r ∈ relJoinedByName s tname := by
      have := (mem_sortBy relOrder r _).mp hr
      exact (List.mem_filter.mp this).1
    have hdir := relJoinedByName_direction hr
    by_cases hsc : r.source_table = tname
    · rw [hdir, if_pos hsc]
      constructor
      · exact ⟨fun _ => hsc, fun _ => rfl⟩
      · constructor
        · intro h
          exact absurd h (by decide)
        · intro h
          exact absurd hsc h
    · rw [hdir, if_neg hsc]
      constructor
      · constructor
        · intro h
          exact absurd h (by decide)
        · intro h
          exact absurd h hsc
      · exact ⟨fun _ => hsc, fun _ => rfl⟩

/-- C5 (witness): the self-loop edge of `storeSelfLoop` is labelled
`downstream` because table 1 is its source, and the id-mode result list is
sorted by confidence. -/
theorem c5_witness :
    ((selfRel.direction = "downstream" ↔ (selfRel.source_table_id : Int) = 1) ∧
     (selfRel.direction = "upstream" ↔ ¬ (selfRel.source_table_id : Int) = 1)) ∧
    List.Chain' (fun a b => b.confidence_score ≤ a.confidence_score)
      (relationshipsGET storeSelfLoop (some "1") none none).relationships :=
  ⟨(c5_direction_amended storeSelfLoop "1" 1 none (by decide) (by decide)).2.2.1
      selfRel (by decide),
   (c5_direction_amended storeSelfLoop "1" 1 none (by decide) (by decide)).2.2.2.1⟩

/-- C6 (counterexample): a malformed `table_id` (non-numeric `abc`) is not
rejected with a 4xx status: the relationships endpoint returns HTTP 200
carrying the `Invalid table ID` error field. -/
theorem c6_counterexample :
    (relationshipsGET emptyStore (some "abc") none none).status = 200 ∧
    (relationshipsGET emptyStore (some "abc") none none).status < 400 ∧
    (relationshipsGET emptyStore (some "abc") none none).error = some "Invalid table ID" ∧
    parseIntJS "abc" = none := by
  decide

/-- C6 (amended): a missing required field (mermaid endpoint) and a missing or
too-short query (search endpoint) are rejected with status 400 before any
store access — the response does not depend on the store — and carry an error
field; a present but non-numeric `table_id` on the relationships endpoint is
likewise store-independent and carries an error field, but is returned with
success status 200 instead of a 4xx status. -/
theorem c6_validation_amended :
    (∀ (s s' : Store) (q ty : Option String),
        truthyStr q = false ∨ (jsOrElse q "").length < 2 →
        (searchGET s q ty).status = 400 ∧ (searchGET s q ty).error.isSome = true ∧
        searchGET s q ty = searchGET s' q ty) ∧
    (∀ (s s' : Store) (b : MermaidBody),
        truthyStr b.table_name = false ∨ truthyStr b.layer = false →
        (mermaidPOST s b).status = 400 ∧ (mermaidPOST s b).error.isSome = true ∧
        mermaidPOST s b = mermaidPOST s' b) ∧
    (∀ (s s' : Store) (tidStr : String) (tn d : Option String),
        tidStr ≠ "" → parseIntJS tidStr = none →
        (relationshipsGET s (some tidStr) tn d).status = 200 ∧
        (relationshipsGET s (some tidStr) tn d).error = some "Invalid table ID" ∧
        relationshipsGET s (some tidStr) tn d = relationshipsGET s' (some tidStr) tn d) := by
  refine ⟨?_, ?_, ?_⟩
  · intro s s' q ty h
    simp only [searchGET, if_pos h]
    exact ⟨trivial, rfl, trivial⟩
  · intro s s' b h
    simp only [mermaidPOST, if_pos h]
    exact ⟨trivial, rfl, trivial⟩
  · intro s s' tidStr tn d hne hparse
    have h1 : truthyStr (some tidStr) = true := by simp [truthyStr, hne]
    have h2 : jsOrElse (some tidStr) "" = tidStr := by simp [jsOrElse, hne]
    simp only [relationshipsGET, h1, h2, hparse, if_true]
    exact ⟨trivial, trivial, trivial⟩

/-- C6 (witness): concrete invalid requests — a one-character search query, a
mermaid request with no table name, and a non-numeric relationships table id —
behave as the amended claim states. -/
theorem c6_witness :
    (searchGET emptyStore (some "x") none).status = 400 ∧
    (mermaidPOST emptyStore ⟨none, some "bronze", none⟩).status = 400 ∧
    (relationshipsGET emptyStore (some "zzz") none none).error = some "Invalid table ID" :=
  ⟨(c6_validation_amended.1 emptyStore storeLine (some "x") none (by decide)).1,
   (c6_validation_amended.2.1 emptyStore storeLine ⟨none, some "bronze", none⟩ (by decide)).1,
   (c6_validation_amended.2.2 emptyStore storeLine "zzz" none none (by decide) (by decide)).2.1⟩

/-- C7: when no table with the requested name exists in the requested layer,
the lineage-chain resolution succeeds with HTTP 200 and an entirely empty
graph — no nodes, no edges, total depth 0, no layers involved, and no error
field. -/
theorem c7_seed_absent (s : Store) (tn ln : String) (d : Option String)
    (htn : tn ≠ "") (hln : ln ≠ "")
    (habs : ∀ t ∈ s.tables, ∀ l ∈ s.layers,
      ¬(t.layer_id = l.id ∧ t.name = tn ∧ l.name = ln)) :
    (mermaidPOST s ⟨some tn, some ln, d⟩).nodes = [] ∧
    (mermaidPOST s ⟨some tn, some ln, d⟩).edges = [] ∧
    (mermaidPOST s ⟨some tn, some ln, d⟩).total_depth = 0 ∧
    (mermaidPOST s ⟨some tn, some ln, d⟩).layers_involved = [] ∧
    (mermaidPOST s ⟨some tn, some ln, d⟩).error = none ∧
    (mermaidPOST s ⟨some tn, some ln, d⟩).status = 200 := by
  have hseed : seedRows s tn ln = [] := by
    rw [List.eq_nil_iff_forall_not_mem]
    intro r hr
    rw [mem_seedRows] at hr
    obtain ⟨t, ht, l, hl, hcond, _⟩ := hr
    exact habs t ht l hl hcond
  have hchain := lineageChain_eq_nil s tn ln hseed
  have h1 : jsOrElse (some tn) "" = tn := by simp [jsOrElse, htn]
  have h2 : jsOrElse (some ln) "" = ln := by simp [jsOrElse, hln]
  have hcond : ¬(truthyStr (some tn) = false ∨ truthyStr (some ln) = false) := by
    simp [truthyStr, htn, hln]
  have hnodes : lineageNodes s tn ln = [] := by
    rw [lineageNodes, hchain]
    rfl
  simp only [mermaidPOST, if_neg hcond, h1, h2, hnodes]
  refine ⟨?_, ?_, ?_, ?_, ?_, ?_⟩ <;> trivial

/-- C7 (witness): requesting the absent table `Z` in the bronze layer of the
two-table store yields the empty success response. -/
theorem c7_witness :
    (mermaidPOST storeLine ⟨some "Z", some "bronze", none⟩).nodes = [] ∧
    (mermaidPOST storeLine ⟨some "Z", some "bronze", none⟩).edges = [] ∧
    (mermaidPOST storeLine ⟨some "Z", some "bronze", none⟩).total_depth = 0 ∧
    (mermaidPOST storeLine ⟨some "Z", some "bronze", none⟩).layers_involved = [] ∧
    (mermaidPOST storeLine ⟨some "Z", some "bronze", none⟩).error = none ∧
    (mermaidPOST storeLine ⟨some "Z", some "bronze", none⟩).status = 200 :=
  c7_seed_absent storeLine "Z" "bronze" none (by decide) (by decide) (by decide)

/-- C8: the diagram synthesizer is a pure function of the assembled graph —
two runs on equal node lists and equal edge lists produce byte-identical
mermaid text. -/
theorem c8_determinism (n1 n2 : List LineageNode) (e1 e2 : List LineageEdge)
    (hn : n1 = n2) (he : e1 = e2) :
    mermaidSynth n1 e1 = mermaidSynth n2 e2 := by
  rw [hn, he]

/-- C8 (witness): two syntheses of the selected diamond lineage graph agree. -/
theorem c8_witness :
    mermaidSynth (mermaidPOST storeDiamond bodyA).nodes (mermaidPOST storeDiamond bodyA).edges =
      mermaidSynth (mermaidPOST storeDiamond bodyA).nodes (mermaidPOST storeDiamond bodyA).edges :=
  c8_determinism _ _ _ _ rfl rfl

/-- C9: every edge of a lineage-chain response connects two consecutive
entries of the returned node list (which is sorted by layer id and then table
name): the edge carries the names/layers of some adjacent node pair, the
per-pair transformation query is non-empty, the edge's kind is that of the
first query row, and a matching transformation row exists in the store; the
number of edges never exceeds the number of adjacent pairs. -/
theorem c9_edges_consecutive (s : Store) (body : MermaidBody) :
    (∀ e ∈ (mermaidPOST s body).edges,
      ∃ pre a b post tj tjs,
        (mermaidPOST s body).nodes = pre ++ a :: b :: post ∧
        edgeQuery s a.id b.id = tj :: tjs ∧
        e = ⟨a.name, b.name, a.layer, b.layer, tj.transformation_type⟩ ∧
        ∃ tr ∈ s.transformations,
          tr.source_table_id = a.id ∧ tr.target_table_id = b.id ∧
          tj.transformation_type = tr.transformation_type) ∧
    (mermaidPOST s body).edges.length ≤ (mermaidPOST s body).nodes.length - 1 ∧
    List.Chain' nodeOrdered (mermaidPOST s body).nodes := by
  by_cases hval : truthyStr body.table_name = false ∨ truthyStr body.layer = false
  · simp only [mermaidPOST, if_pos hval]
    refine ⟨?_, ?_, ?_⟩ <;> simp
  · simp only [mermaidPOST, if_neg hval]
    refine ⟨?_, buildEdges_length s _, ?_⟩
    · intro e he
      obtain ⟨pre, a, b, post, tj, tjs, heq, hq, hee⟩ := buildEdges_mem s _ e he
      refine ⟨pre, a, b, post, tj, tjs, heq, hq, hee, ?_⟩
      have htj : tj ∈ edgeQuery s a.id b.id := by
        rw [hq]
        exact List.mem_cons_self _ _
      rw [mem_edgeQuery] at htj
      obtain ⟨tr, htr, st, hst, hsrc, tt, htt, htgt, sl, _, _, tl, _, hc, hx⟩ := htj
      refine ⟨tr, htr, ?_, ?_, ?_⟩
      · rw [hsrc, hc.2.1]
      · rw [htgt, hc.2.2]
      · rw [← hx]
    · show List.Chain' nodeOrdered (lineageNodes s _ _)
      rw [lineageNodes, List.chain'_map]
      refine List.Chain'.imp ?_ (chain'_sortBy chainRowLe chainRowLe_total _)
      intro x y hxy
      rw [chainRowLe_eq_true_iff] at hxy
      exact hxy

/-- C9 (witness): the first diamond edge `A → B` connects an adjacent node
pair of the response. -/
theorem c9_witness :
    ∃ pre a b post tj tjs,
      (mermaidPOST storeDiamond bodyA).nodes = pre ++ a :: b :: post ∧
      edgeQuery storeDiamond a.id b.id = tj :: tjs ∧
      edgeAB = ⟨a.name, b.name, a.layer, b.layer, tj.transformation_type⟩ ∧
      ∃ tr ∈ storeDiamond.transformations,
        tr.source_table_id = a.id ∧ tr.target_table_id = b.id ∧
        tj.transformation_type = tr.transformation_type :=
  (c9_edges_consecutive storeDiamond bodyA).1 edgeAB (by decide)

/-- C10: every transformation returned by the transformation lookup — in the
table-scoped mode as well as in the layer-pair mode — carries confidence
score exactly 1, and `avg_confidence` is exactly 1 for every non-empty
result, regardless of the store contents. -/
theorem c10_confidence (s : Store) (b : TransfBody) :
    (∀ t ∈ (transformationsPOST s b).transformations, t.confidence_score = 1) ∧
    ((transformationsPOST s b).transformations ≠ [] →
      (transformationsPOST s b).summary.avg_confidence = 1) := by
  by_cases h1 : (truthyStr b.table_name || truthyInt b.table_id) = true
  · simp only [transformationsPOST, if_pos h1]
    constructor
    · intro t ht
      simp only [List.mem_map] at ht
      obtain ⟨r, _, hr⟩ := ht
      rw [← hr]
      rfl
    · intro _
      trivial
  · by_cases h2 : (truthyStr b.source_layer && truthyStr b.target_layer) = true
    · simp only [transformationsPOST, if_neg h1, if_pos h2]
      constructor
      · intro t ht
        simp only [List.mem_map] at ht
        obtain ⟨r, _, hr⟩ := ht
        rw [← hr]
        rfl
      · intro _
        trivial
    · simp only [transformationsPOST, if_neg h1, if_neg h2]
      constructor
      · intro t ht
        simp at ht
      · intro h
        exact absurd rfl h

/-- C10 (witness): the table-scoped lookup on `A` against the diamond store
returns a non-empty list whose first row has confidence 1, with average
confidence 1. -/
theorem c10_witness :
    (transformationsPOST storeDiamond bodyTransfA).transformations ≠ [] ∧
    transfOutA.confidence_score = 1 ∧
    (transformationsPOST storeDiamond bodyTransfA).summary.avg_confidence = 1 :=
  ⟨by decide,
   (c10_confidence storeDiamond bodyTransfA).1 transfOutA (by decide),
   (c10_confidence storeDiamond bodyTransfA).2 (by decide)⟩
